import Mathlib

/-!
Verification of the solar-system repository's orbital kinematics core.

The definitions below are a shallow embedding of the TypeScript sources:
* `src/src/systems/timeSystem.ts` (class `TimeSystem`) — embedded over `ℚ`
  (JS numbers carrying millisecond timestamps), with `Date.now()` made an
  explicit `now` argument and the DOM/UI statements (which touch no clock
  state) omitted;
* `src/src/utils/orbitalMath.ts` (class `OrbitalMath`) — embedded over `ℝ`,
  with JS `Math.sin`/`cos`/`sqrt`/`atan2` as their exact real counterparts;
* `src/src/data/celestialData.ts` — the static data table, `scaleFactors`
  and `J2000_EPOCH`, plus the moon-creation distance from the
  `CelestialObjects.createMoon` site.

Definitions suffixed or prefixed with `spec` are transcribed from the
natural-language specification (section 4.1's numbered algorithm) instead,
for refinement comparison against the source embedding.
-/

namespace SolarSystem

/-- THREE.Vector3 as used by the orbital math: a plain triple of reals. -/
@[ext] structure Vec3 where
  x : ℝ
  y : ℝ
  z : ℝ

/-- `CelestialBodyData` from `src/src/types` (unnamed/part_007): optional
numeric fields become `Option ℝ`, required ones `ℝ`.  `axialTilt` is present
on the data literals though absent from the interface; it never enters the
orbital math. -/
structure CelestialBodyData where
  name : String
  radius : ℝ
  color : ℕ
  semiMajorAxis : Option ℝ
  eccentricity : ℝ
  inclination : Option ℝ
  meanLongitude : Option ℝ
  longitudePerihelion : Option ℝ
  longitudeNode : Option ℝ
  orbitalPeriod : ℝ
  rotationPeriod : ℝ
  distance : Option ℝ
  scaleFactor : Option ℝ
  axialTilt : Option ℝ

/-- The JS idiom `(data.field || 0)` on an optional numeric field: a missing
value reads as `0` (and `0` itself also reads as `0`). -/
def orZero (o : Option ℝ) : ℝ := o.getD 0

/-- `ScaleFactors` from `src/src/data/celestialData.ts`. -/
structure ScaleFactors where
  distance : ℝ
  planetSize : ℝ
  sunSize : ℝ

/-- `scaleFactors` constant (celestialData.ts lines 170-174). -/
noncomputable def scaleFactors : ScaleFactors :=
  { distance := 10, planetSize := 0.5, sunSize := 0.015 }

/-- `J2000_EPOCH = new Date('2000-01-01T12:00:00Z').getTime()`
(celestialData.ts line 177): 2000-01-01T12:00:00Z in Unix milliseconds. -/
noncomputable def J2000_EPOCH : ℝ := 946728000000

/-! ### The static celestial data table (celestialData.ts lines 10-167) -/

noncomputable def sunData : CelestialBodyData :=
  { name := "太阳", radius := 109, color := 0xFDB813, semiMajorAxis := none,
    eccentricity := 0, inclination := none, meanLongitude := none,
    longitudePerihelion := none, longitudeNode := none, orbitalPeriod := 0,
    rotationPeriod := 25.4, distance := some 0, scaleFactor := none,
    axialTilt := some 7.25 }

noncomputable def mercuryData : CelestialBodyData :=
  { name := "水星", radius := 0.383, color := 0x8C7853,
    semiMajorAxis := some 0.38709927, eccentricity := 0.20563593,
    inclination := some 7.00497902, meanLongitude := some 252.25032350,
    longitudePerihelion := some 77.45779628, longitudeNode := some 48.33076593,
    orbitalPeriod := 87.9691, rotationPeriod := 58.6462, distance := none,
    scaleFactor := none, axialTilt := some 0.034 }

noncomputable def venusData : CelestialBodyData :=
  { name := "金星", radius := 0.949, color := 0xFFC649,
    semiMajorAxis := some 0.72333566, eccentricity := 0.00677672,
    inclination := some 3.39467605, meanLongitude := some 181.97909950,
    longitudePerihelion := some 131.60246718, longitudeNode := some 76.67984255,
    orbitalPeriod := 224.7008, rotationPeriod := -243.0226, distance := none,
    scaleFactor := none, axialTilt := some 177.4 }

noncomputable def earthData : CelestialBodyData :=
  { name := "地球", radius := 1, color := 0x6B93D6,
    semiMajorAxis := some 1.00000261, eccentricity := 0.01671123,
    inclination := some (-0.00001531), meanLongitude := some 100.46457166,
    longitudePerihelion := some 102.93768193, longitudeNode := some 0.0,
    orbitalPeriod := 365.25636, rotationPeriod := 1.0, distance := none,
    scaleFactor := none, axialTilt := some 23.44 }

noncomputable def moonData : CelestialBodyData :=
  { name := "月球", radius := 0.273, color := 0xC0C0C0,
    semiMajorAxis := some 0.00257, eccentricity := 0.0549,
    inclination := some 5.145, meanLongitude := some 218.3164477,
    longitudePerihelion := some 83.3532465, longitudeNode := some 125.1228870,
    orbitalPeriod := 27.321661, rotationPeriod := 27.321661, distance := none,
    scaleFactor := some 1.8, axialTilt := some 6.68 }

noncomputable def marsData : CelestialBodyData :=
  { name := "火星", radius := 0.532, color := 0xCD5C5C,
    semiMajorAxis := some 1.52371034, eccentricity := 0.09339410,
    inclination := some 1.84969142, meanLongitude := some (-4.55343205),
    longitudePerihelion := some (-23.94362959), longitudeNode := some 49.55953891,
    orbitalPeriod := 686.971, rotationPeriod := 1.025957, distance := none,
    scaleFactor := none, axialTilt := some 25.19 }

noncomputable def jupiterData : CelestialBodyData :=
  { name := "木星", radius := 11.21, color := 0xD8CA9D,
    semiMajorAxis := some 5.20288700, eccentricity := 0.04838624,
    inclination := some 1.30439695, meanLongitude := some 34.39644051,
    longitudePerihelion := some 14.72847983, longitudeNode := some 100.47390909,
    orbitalPeriod := 4332.59, rotationPeriod := 0.41354, distance := none,
    scaleFactor := some 0.3, axialTilt := some 3.13 }

noncomputable def saturnData : CelestialBodyData :=
  { name := "土星", radius := 9.45, color := 0xFAD5A5,
    semiMajorAxis := some 9.53667594, eccentricity := 0.05386179,
    inclination := some 2.48599187, meanLongitude := some 49.95424423,
    longitudePerihelion := some 92.59887831, longitudeNode := some 113.66242448,
    orbitalPeriod := 10759.22, rotationPeriod := 0.44401, distance := none,
    scaleFactor := some 0.35, axialTilt := some 26.73 }

noncomputable def uranusData : CelestialBodyData :=
  { name := "天王星", radius := 4.01, color := 0x4FD0E3,
    semiMajorAxis := some 19.18916464, eccentricity := 0.04725744,
    inclination := some 0.77263783, meanLongitude := some 313.23810451,
    longitudePerihelion := some 170.95427630, longitudeNode := some 74.01692503,
    orbitalPeriod := 30688.5, rotationPeriod := -0.71833, distance := none,
    scaleFactor := some 0.5, axialTilt := some 97.77 }

noncomputable def neptuneData : CelestialBodyData :=
  { name := "海王星", radius := 3.88, color := 0x4B70DD,
    semiMajorAxis := some 30.06992276, eccentricity := 0.00859048,
    inclination := some 1.77004347, meanLongitude := some (-55.12002969),
    longitudePerihelion := some 44.96476227, longitudeNode := some 131.78422574,
    orbitalPeriod := 60182, rotationPeriod := 0.6713, distance := none,
    scaleFactor := some 0.5, axialTilt := some 28.32 }

noncomputable def plutoData : CelestialBodyData :=
  { name := "冥王星", radius := 0.186, color := 0xA0522D,
    semiMajorAxis := some 39.48211675, eccentricity := 0.24880766,
    inclination := some 17.14001206, meanLongitude := some 238.92903833,
    longitudePerihelion := some 224.06891629, longitudeNode := some 110.30393684,
    orbitalPeriod := 90560, rotationPeriod := 6.387230, distance := none,
    scaleFactor := some 5.0, axialTilt := some 122.53 }

/-- `CelestialDataCollection` (types/index): the eleven bodies of the table.
(The interface lists ten; `pluto` is present on the literal and consumed by
`createPlanets`, so it is kept here.) -/
structure CelestialDataCollection where
  sun : CelestialBodyData
  mercury : CelestialBodyData
  venus : CelestialBodyData
  earth : CelestialBodyData
  moon : CelestialBodyData
  mars : CelestialBodyData
  jupiter : CelestialBodyData
  saturn : CelestialBodyData
  uranus : CelestialBodyData
  neptune : CelestialBodyData
  pluto : CelestialBodyData

/-- The `celestialData` export: a plain record literal.  Loading performs no
validation whatsoever — there is no code path in the repository that checks
eccentricity ranges or orbital periods, and no failure channel. -/
noncomputable def celestialData : CelestialDataCollection :=
  { sun := sunData, mercury := mercuryData, venus := venusData,
    earth := earthData, moon := moonData, mars := marsData,
    jupiter := jupiterData, saturn := saturnData, uranus := uranusData,
    neptune := neptuneData, pluto := plutoData }

/-- The spec's load-time invariant on a non-central body's elements:
`eccentricity ∈ [0,1)` and `orbitalPeriod > 0` (spec section 3). -/
def validOrbitalElements (d : CelestialBodyData) : Prop :=
  0 ≤ d.eccentricity ∧ d.eccentricity < 1 ∧ 0 < d.orbitalPeriod

/-! ## TimeSystem (src/src/systems/timeSystem.ts, the three-speed version)

State fields of class `TimeSystem`; every method that reads the wall clock
takes `Date.now()` as an explicit `now : ℚ` argument.  The DOM methods
(`setupClock`, `updateClock`, `updateTimeControlsUI`, …) read but never
write this state and are omitted. -/

inductive TimeMode where
  | static
  | animation
deriving DecidableEq, Repr

inductive TimeScaleKind where
  | hour
  | day
  | week
deriving DecidableEq, Repr

structure TimeSystemState where
  timeMode : TimeMode
  simulationStartTime : ℚ
  animationTimeScale : ℚ
  isPaused : Bool
  pausedTime : ℚ
  currentTimeScaleOption : TimeScaleKind
deriving DecidableEq, Repr

/-- Field initializers of `TimeSystem` (timeSystem.ts lines 8-13), with the
construction-time `Date.now()` passed in. -/
def initialTimeSystem (now : ℚ) : TimeSystemState :=
  { timeMode := TimeMode.static, simulationStartTime := now,
    animationTimeScale := 7 * 24 * 60 * 60 * 1000, isPaused := false,
    pausedTime := 0, currentTimeScaleOption := TimeScaleKind.week }

/-- `TimeSystem.getSimulationTime` (timeSystem.ts lines 24-37). -/
def getSimulationTime (ts : TimeSystemState) (now : ℚ) : ℚ :=
  match ts.timeMode with
  | TimeMode.static => now
  | TimeMode.animation =>
    if ts.isPaused then
      ts.simulationStartTime + ts.pausedTime * ts.animationTimeScale / 1000
    else
      ts.simulationStartTime +
        (now - ts.simulationStartTime) * ts.animationTimeScale / 1000

/-- `TimeSystem.toggleTimeMode` (timeSystem.ts lines 42-55). -/
def toggleTimeMode (ts : TimeSystemState) (now : ℚ) : TimeSystemState :=
  match ts.timeMode with
  | TimeMode.static =>
    { ts with
      timeMode := TimeMode.animation
      simulationStartTime := now
      isPaused := false
      pausedTime := 0 }
  | TimeMode.animation =>
    { ts with timeMode := TimeMode.static, isPaused := false, pausedTime := 0 }

/-- `TimeSystem.togglePause` (timeSystem.ts lines 60-74). -/
def togglePause (ts : TimeSystemState) (now : ℚ) : TimeSystemState :=
  match ts.timeMode with
  | TimeMode.static => ts
  | TimeMode.animation =>
    if ts.isPaused then
      { ts with simulationStartTime := now - ts.pausedTime, isPaused := false }
    else
      { ts with pausedTime := now - ts.simulationStartTime, isPaused := true }

/-- The scale each option selects (timeSystem.ts lines 104-114). -/
def timeScaleOf : TimeScaleKind → ℚ
  | TimeScaleKind.hour => 60 * 60 * 1000
  | TimeScaleKind.day => 24 * 60 * 60 * 1000
  | TimeScaleKind.week => 7 * 24 * 60 * 60 * 1000

/-- `TimeSystem.setTimeScaleOption` (timeSystem.ts lines 100-126): record the
option, install the new scale, and — only when in animation mode and not
paused — re-anchor `simulationStartTime` to now and zero `pausedTime`. -/
def setTimeScaleOption (ts : TimeSystemState) (kind : TimeScaleKind)
    (now : ℚ) : TimeSystemState :=
  let ts1 :=
    { ts with
      currentTimeScaleOption := kind
      animationTimeScale := timeScaleOf kind }
  if ts1.timeMode = TimeMode.animation ∧ ts1.isPaused = false then
    { ts1 with simulationStartTime := now, pausedTime := 0 }
  else
    ts1

/-! ## OrbitalMath (src/src/utils/orbitalMath.ts)

JS `Math.atan2(y, x)` is the principal argument of the complex number
`x + y·i` (range `(-π, π]`, `atan2 0 0 = 0`), which is exactly
`Complex.arg ⟨x, y⟩`. -/

/-- `Math.atan2 y x`: the angle of the point `(x, y)`. -/
noncomputable def atan2 (y x : ℝ) : ℝ := Complex.arg ⟨x, y⟩

/-- `daysSinceJ2000` as computed at orbitalMath.ts lines 18, 81 and 99:
`(time - J2000_EPOCH) / (1000 * 60 * 60 * 24)`. -/
noncomputable def daysSinceJ2000 (time : ℝ) : ℝ :=
  (time - J2000_EPOCH) / (1000 * 60 * 60 * 24)

/-- The mean anomaly computed by `calculatePlanetPosition`
(orbitalMath.ts lines 24-35): mean longitude at epoch (degrees→radians)
plus mean motion `2π / orbitalPeriod` times the elapsed days, minus the
longitude of perihelion (degrees→radians). -/
noncomputable def meanAnomalyAt (data : CelestialBodyData) (time : ℝ) : ℝ :=
  orZero data.meanLongitude * Real.pi / 180 +
    (2 * Real.pi) / data.orbitalPeriod * daysSinceJ2000 time -
    orZero data.longitudePerihelion * Real.pi / 180

/-- One pass of the Newton–Raphson loop body with early exit
(orbitalMath.ts lines 39-44): compute `deltaE`, subtract it, and stop as
soon as `|deltaE| < 1e-8`; `n` counts the remaining iterations. -/
noncomputable def keplerIter (e M : ℝ) : ℕ → ℝ → ℝ
  | 0, E => E
  | n + 1, E =>
    let deltaE := (E - e * Real.sin E - M) / (1 - e * Real.cos E)
    let E' := E - deltaE
    if |deltaE| < 1e-8 then E' else keplerIter e M n E'

/-- The full Kepler solve of the source: seed `E₀ = M`, at most 10
iterations (orbitalMath.ts lines 38-44). -/
noncomputable def solveKepler (e M : ℝ) : ℝ := keplerIter e M 10 M

/-- The true anomaly computed from the eccentric anomaly
(orbitalMath.ts lines 47-50):
`2 · atan2(√(1+e)·sin(E/2), √(1-e)·cos(E/2))`. -/
noncomputable def trueAnomalyOf (e E : ℝ) : ℝ :=
  2 * atan2 (Real.sqrt (1 + e) * Real.sin (E / 2))
    (Real.sqrt (1 - e) * Real.cos (E / 2))

/-- `OrbitalMath.calculatePlanetPosition` (orbitalMath.ts lines 16-72). -/
noncomputable def calculatePlanetPosition (data : CelestialBodyData)
    (time : ℝ) : Vec3 :=
  let semiMajorAxis := orZero data.semiMajorAxis * scaleFactors.distance
  let eccentricity := data.eccentricity
  let inclination := orZero data.inclination * Real.pi / 180
  let longitudePerihelion := orZero data.longitudePerihelion * Real.pi / 180
  let longitudeNode := orZero data.longitudeNode * Real.pi / 180
  let meanAnomaly := meanAnomalyAt data time
  let eccentricAnomaly := solveKepler eccentricity meanAnomaly
  let trueAnomaly := trueAnomalyOf eccentricity eccentricAnomaly
  let radius := semiMajorAxis * (1 - eccentricity * Real.cos eccentricAnomaly)
  let argumentPerihelion := longitudePerihelion - longitudeNode
  let u := trueAnomaly + argumentPerihelion
  let cosU := Real.cos u
  let sinU := Real.sin u
  let cosI := Real.cos inclination
  let sinI := Real.sin inclination
  let cosO := Real.cos longitudeNode
  let sinO := Real.sin longitudeNode
  let x := radius * (cosO * cosU - sinO * sinU * cosI)
  let y := radius * (sinO * cosU + cosO * sinU * cosI)
  let z := radius * (sinU * sinI)
  { x := x, y := z, z := y }

/-- `OrbitalMath.calculateRotationAngle` (orbitalMath.ts lines 80-84). -/
noncomputable def calculateRotationAngle (data : CelestialBodyData)
    (time : ℝ) : ℝ :=
  let rotationAngle :=
    daysSinceJ2000 time / |data.rotationPeriod| * (2 * Real.pi)
  if 0 < data.rotationPeriod then rotationAngle else -rotationAngle

/-- The display distance of the moon inside
`OrbitalMath.calculateMoonPosition` (orbitalMath.ts line 102):
`(moonData.semiMajorAxis || 0) * scaleFactors.distance * 45`. -/
noncomputable def moonDistanceInCalculateMoonPosition
    (moonElements : CelestialBodyData) : ℝ :=
  orZero moonElements.semiMajorAxis * scaleFactors.distance * 45

/-- `OrbitalMath.calculateMoonPosition` (orbitalMath.ts lines 93-146). -/
noncomputable def calculateMoonPosition (moonElements : CelestialBodyData)
    (earthPosition : Vec3) (time : ℝ) : Vec3 :=
  let moonDistance := moonDistanceInCalculateMoonPosition moonElements
  let eccentricity := moonElements.eccentricity
  let inclination := orZero moonElements.inclination * Real.pi / 180
  let meanAnomaly := meanAnomalyAt moonElements time
  let eccentricAnomaly := solveKepler eccentricity meanAnomaly
  let trueAnomaly := trueAnomalyOf eccentricity eccentricAnomaly
  let radius := moonDistance * (1 - eccentricity * Real.cos eccentricAnomaly)
  let moonRelativeX := radius * Real.cos trueAnomaly
  let moonRelativeZ := radius * Real.sin trueAnomaly * Real.cos inclination
  let moonRelativeY := radius * Real.sin trueAnomaly * Real.sin inclination
  { x := earthPosition.x + moonRelativeX, y := earthPosition.y + moonRelativeY,
    z := earthPosition.z + moonRelativeZ }

/-- The body of the sampling loop of `OrbitalMath.generateOrbitPath`
(orbitalMath.ts lines 168-192), as a function of the loop's true anomaly. -/
noncomputable def orbitPathPoint (data : CelestialBodyData)
    (trueAnomaly : ℝ) : Vec3 :=
  let semiMajorAxis := orZero data.semiMajorAxis * scaleFactors.distance
  let eccentricity := data.eccentricity
  let inclination := orZero data.inclination * Real.pi / 180
  let longitudePerihelion := orZero data.longitudePerihelion * Real.pi / 180
  let longitudeNode := orZero data.longitudeNode * Real.pi / 180
  let argumentPerihelion := longitudePerihelion - longitudeNode
  let radius := semiMajorAxis * (1 - eccentricity * eccentricity) /
    (1 + eccentricity * Real.cos trueAnomaly)
  let u := trueAnomaly + argumentPerihelion
  let cosU := Real.cos u
  let sinU := Real.sin u
  let cosI := Real.cos inclination
  let sinI := Real.sin inclination
  let cosO := Real.cos longitudeNode
  let sinO := Real.sin longitudeNode
  let x := radius * (cosO * cosU - sinO * sinU * cosI)
  let y := radius * (sinO * cosU + cosO * sinU * cosI)
  let z := radius * (sinU * sinI)
  { x := x, y := z, z := y }

/-- `OrbitalMath.generateOrbitPath` (orbitalMath.ts lines 154-195): for
`i ∈ [0, segments]` sample the true anomaly `(i / segments) · 2π` and push
the corresponding path point. -/
noncomputable def generateOrbitPath (data : CelestialBodyData)
    (segments : ℕ) : List Vec3 :=
  (List.range (segments + 1)).map fun (i : ℕ) =>
    orbitPathPoint data ((i : ℝ) / (segments : ℝ) * (2 * Real.pi))

/-! ## CelestialObjects.createMoon (src/unnamed objects file, the
`celestialObjects.ts` module): the moon-creation call site. -/

/-- The display distance of the moon at the creation site
(`createMoon`): `(moonData.semiMajorAxis || 0) * scaleFactors.distance * 30`
— the comment there says "放大月球轨道以便观察" (enlarged for visibility). -/
noncomputable def moonDistanceInCreateMoon
    (moonElements : CelestialBodyData) : ℝ :=
  orZero moonElements.semiMajorAxis * scaleFactors.distance * 30

/-- The initial moon position set by `createMoon`:
`(earthDistance + moonDistance, 0, 0)`. -/
noncomputable def createMoonInitialPosition : Vec3 :=
  let earthDistance := orZero celestialData.earth.semiMajorAxis *
    scaleFactors.distance
  let moonDistance := moonDistanceInCreateMoon celestialData.moon
  { x := earthDistance + moonDistance, y := 0, z := 0 }

/-! ## Definitions transcribed from the specification (section 4.1)

These follow the spec's numbered algorithm text, independently of the
source transcription above, so that claims C4 and C7 can compare the two. -/

/-- Spec step 1's `ONE_DAY`: one day in milliseconds. -/
noncomputable def oneDay : ℝ := 1000 * 60 * 60 * 24

/-- Spec: "all angle inputs are stored in degrees and must be converted to
radians before use". -/
noncomputable def degToRad (x : ℝ) : ℝ := x * Real.pi / 180

/-- Spec step 1: `daysSinceEpoch = (simulatedInstant − EPOCH) / ONE_DAY`. -/
noncomputable def specDaysSinceEpoch (instant : ℝ) : ℝ :=
  (instant - J2000_EPOCH) / oneDay

/-- Spec step 5's Newton–Raphson update: `E ← E − (E − e·sinE − M)/(1 − e·cosE)`. -/
noncomputable def specNewtonNext (e M E : ℝ) : ℝ :=
  E - (E - e * Real.sin E - M) / (1 - e * Real.cos E)

/-- Spec step 5's iteration: apply the update, stop once the last step moved
`E` by less than `1e-8`, or when the remaining-iteration budget runs out. -/
noncomputable def specNewton (e M : ℝ) : ℕ → ℝ → ℝ
  | 0, E => E
  | n + 1, E =>
    if |E - specNewtonNext e M E| < 1e-8 then specNewtonNext e M E
    else specNewton e M n (specNewtonNext e M E)

/-- Spec step 5: seed `E₀ = M`, fixed cap of 10 iterations. -/
noncomputable def specSolveKepler (e M : ℝ) : ℝ := specNewton e M 10 M

/-- Spec steps 2-4: `meanMotion = 2π/orbitalPeriod`;
`meanLongitude = meanLongitudeAtEpoch + meanMotion × daysSinceEpoch`;
`meanAnomaly = meanLongitude − longitudeOfPerihelion` (radians). -/
noncomputable def specMeanAnomaly (data : CelestialBodyData)
    (instant : ℝ) : ℝ :=
  degToRad (orZero data.meanLongitude) +
    2 * Real.pi / data.orbitalPeriod * specDaysSinceEpoch instant -
    degToRad (orZero data.longitudePerihelion)

/-- Spec step 6: `ν = 2·atan2(√(1+e)·sin(E/2), √(1−e)·cos(E/2))`. -/
noncomputable def specTrueAnomaly (e E : ℝ) : ℝ :=
  2 * atan2 (Real.sqrt (1 + e) * Real.sin (E / 2))
    (Real.sqrt (1 - e) * Real.cos (E / 2))

/-- Spec steps 8-10 applied to an orbital radius `r` and true anomaly `ν`:
`u = ν + (ϖ − Ω)`, rotate by inclination and ascending-node longitude, and
remap ecliptic `(x, y, z)` to scene-space `(x, z, y)`. -/
noncomputable def specEclipticToScene (data : CelestialBodyData)
    (r nu : ℝ) : Vec3 :=
  let i := degToRad (orZero data.inclination)
  let Om := degToRad (orZero data.longitudeNode)
  let u := nu + (degToRad (orZero data.longitudePerihelion) - Om)
  let ex := r * (Real.cos Om * Real.cos u -
    Real.sin Om * Real.sin u * Real.cos i)
  let ey := r * (Real.sin Om * Real.cos u +
    Real.cos Om * Real.sin u * Real.cos i)
  let ez := r * (Real.sin u * Real.sin i)
  { x := ex, y := ez, z := ey }

/-- `computePosition` as the spec's section 4.1 describes it, steps 1-10. -/
noncomputable def computePositionSpec (data : CelestialBodyData)
    (instant : ℝ) : Vec3 :=
  let M := specMeanAnomaly data instant
  let E := specSolveKepler data.eccentricity M
  let nu := specTrueAnomaly data.eccentricity E
  let r := orZero data.semiMajorAxis * scaleFactors.distance *
    (1 - data.eccentricity * Real.cos E)
  specEclipticToScene data r nu

/-- An orbit-path sample as the spec's `generateOrbitPath` describes it:
`r = a·(1−e²)/(1+e·cosν)` followed by the same orientation transform and
`(x, z, y)` remap as `computePosition`. -/
noncomputable def orbitPathPointSpec (data : CelestialBodyData)
    (nu : ℝ) : Vec3 :=
  let r := orZero data.semiMajorAxis * scaleFactors.distance *
    (1 - data.eccentricity ^ 2) / (1 + data.eccentricity * Real.cos nu)
  specEclipticToScene data r nu

/-! ## Helper lemmas -/

theorem specNewtonNext_sub (e M E : ℝ) :
    E - specNewtonNext e M E = (E - e * Real.sin E - M) / (1 - e * Real.cos E) := by
  unfold specNewtonNext; ring

theorem specNewton_eq_keplerIter (e M : ℝ) :
    ∀ n E, specNewton e M n E = keplerIter e M n E := by
  intro n
  induction n with
  | zero => intro E; rfl
  | succ n ih =>
    intro E
    show specNewton e M (n + 1) E = keplerIter e M (n + 1) E
    rw [specNewton, keplerIter]
    simp only [specNewtonNext_sub]
    by_cases h : |(E - e * Real.sin E - M) / (1 - e * Real.cos E)| < 1e-8
    · rw [if_pos h, if_pos h, specNewtonNext]
    · rw [if_neg h, if_neg h, ih, specNewtonNext]

theorem specSolveKepler_eq (e M : ℝ) : specSolveKepler e M = solveKepler e M := by
  unfold specSolveKepler solveKepler
  exact specNewton_eq_keplerIter e M 10 M

theorem specMeanAnomaly_eq (data : CelestialBodyData) (t : ℝ) :
    specMeanAnomaly data t = meanAnomalyAt data t := by
  unfold specMeanAnomaly meanAnomalyAt degToRad specDaysSinceEpoch oneDay
    daysSinceJ2000
  ring

/-- **C4** — `calculatePlanetPosition` follows the spec's Keplerian
propagation exactly: same days-since-epoch, mean motion, mean anomaly,
Newton-Raphson solve (seed `M`, `|ΔE| < 1e-8` or 10 iterations), half-angle
true anomaly, radius `a·(1 − e·cosE)` with pre-scaled `a`, inclination and
node rotation, and the `(x, z, y)` scene remap. -/
theorem calculatePlanetPosition_follows_spec (data : CelestialBodyData)
    (hP : 0 < data.orbitalPeriod) (t : ℝ) :
    calculatePlanetPosition data t = computePositionSpec data t := by
  simp only [calculatePlanetPosition, computePositionSpec, specEclipticToScene,
    specTrueAnomaly, trueAnomalyOf, degToRad, specSolveKepler_eq,
    specMeanAnomaly_eq]

/-- Witness for C4 at the earth row of the data table at the epoch. -/
theorem calculatePlanetPosition_follows_spec_witness :
    0 < celestialData.earth.orbitalPeriod ∧
      calculatePlanetPosition celestialData.earth J2000_EPOCH =
        computePositionSpec celestialData.earth J2000_EPOCH := by
  constructor
  · show (0 : ℝ) < (365.25636 : ℝ)
    norm_num
  · exact calculatePlanetPosition_follows_spec celestialData.earth
      (by show (0 : ℝ) < (365.25636 : ℝ); norm_num) J2000_EPOCH

/-! ## C8 — rotation angle -/

/-- **C8** — for a body with a nonzero rotation period,
`calculateRotationAngle` returns `(daysSinceEpoch / |rotationPeriod|) × 2π`,
negated exactly when the rotation period is negative (retrograde spin). -/
theorem calculateRotationAngle_eq (data : CelestialBodyData) (t : ℝ)
    (h : data.rotationPeriod ≠ 0) :
    calculateRotationAngle data t =
      (if data.rotationPeriod < 0 then -1 else 1) *
        (daysSinceJ2000 t / |data.rotationPeriod| * (2 * Real.pi)) := by
  unfold calculateRotationAngle
  rcases lt_or_gt_of_ne h with hneg | hpos
  · rw [if_neg (by linarith), if_pos hneg]; ring
  · rw [if_pos hpos, if_neg (by linarith)]; ring

/-- Witness for C8: the spec's concrete scenario — Venus's retrograde
`rotationPeriod = -243.0226`, evaluated `243.0226` days after the epoch,
spins by exactly `-2π` (one full reverse turn). -/
theorem calculateRotationAngle_eq_witness :
    venusData.rotationPeriod ≠ 0 ∧
      calculateRotationAngle venusData
        (J2000_EPOCH + 243.0226 * (1000 * 60 * 60 * 24)) = -(2 * Real.pi) := by
  have hne : venusData.rotationPeriod ≠ 0 := by
    show (-243.0226 : ℝ) ≠ 0; norm_num
  refine ⟨hne, ?_⟩
  rw [calculateRotationAngle_eq venusData
    (J2000_EPOCH + 243.0226 * (1000 * 60 * 60 * 24)) hne]
  have hP : venusData.rotationPeriod = (-243.0226 : ℝ) := rfl
  have hd : daysSinceJ2000 (J2000_EPOCH + 243.0226 * (1000 * 60 * 60 * 24)) =
      (243.0226 : ℝ) := by
    unfold daysSinceJ2000; ring_nf
  rw [hP, hd, if_pos (by norm_num), abs_of_neg (by norm_num)]
  norm_num

/-! ## TimeSystem scenario: enter animation mode at wall time 0, pause at
100, resume at 150, re-pause at 157 (all in milliseconds). -/

def tsAnimation : TimeSystemState := toggleTimeMode (initialTimeSystem 0) 0

def tsPaused : TimeSystemState := togglePause tsAnimation 100

def tsResumed : TimeSystemState := togglePause tsPaused 150

def tsRepaused : TimeSystemState := togglePause tsResumed 157

/-! ## C5 — a paused accelerated clock is frozen -/

/-- **C5** — in animation mode while paused, `getSimulationTime` returns
`anchorWallTime + accumulatedPausedOffset × accelerationFactor`
(`simulationStartTime + pausedTime × (animationTimeScale/1000)`), and the
result does not depend on the wall-clock argument at all. -/
theorem getSimulationTime_paused_frozen (ts : TimeSystemState)
    (now now' : ℚ) (hmode : ts.timeMode = TimeMode.animation)
    (hp : ts.isPaused = true) :
    getSimulationTime ts now =
      ts.simulationStartTime +
        ts.pausedTime * (ts.animationTimeScale / 1000) ∧
    getSimulationTime ts now = getSimulationTime ts now' := by
  obtain ⟨m, s, k, p, pt, o⟩ := ts
  cases hmode
  cases hp
  constructor
  · show s + pt * k / 1000 = s + pt * (k / 1000)
    ring
  · rfl

/-- Witness for C5 on the concrete paused state `tsPaused` (frozen value
`60480000`, read at two different wall times). -/
theorem getSimulationTime_paused_frozen_witness :
    tsPaused.timeMode = TimeMode.animation ∧ tsPaused.isPaused = true ∧
    getSimulationTime tsPaused 150 =
      tsPaused.simulationStartTime +
        tsPaused.pausedTime * (tsPaused.animationTimeScale / 1000) ∧
    getSimulationTime tsPaused 150 = getSimulationTime tsPaused 99999 := by
  refine ⟨rfl, rfl, ?_⟩
  exact getSimulationTime_paused_frozen tsPaused 150 99999 rfl rfl

/-! ## C1 — resume is NOT continuous: it jumps by the wall time spent paused -/

/-- **C1 counterexample** — enter animation at wall 0 (scale: 1 s = 1 week,
factor 604800), pause at 100: the frozen instant is `60480000`.  Resume at
150: the very next reading is `60480050`, not the frozen `60480000` — the
resume jumps forward by the 50 ms spent paused.  Re-pausing 7 ms later
(`Δ = 7`) freezes `64713650`, while the claim's
`frozen + Δ × factor = 60480000 + 7·604800` is `64713600`. -/
theorem resume_not_continuous :
    getSimulationTime tsPaused 150 = 60480000 ∧
    getSimulationTime tsResumed 150 = 60480050 ∧
    getSimulationTime tsResumed 150 ≠ getSimulationTime tsPaused 150 ∧
    getSimulationTime tsRepaused 200 ≠
      getSimulationTime tsPaused 200 + 7 * (604800000 / 1000) := by
  refine ⟨?_, ?_, ?_, ?_⟩ <;>
    norm_num [tsRepaused, tsResumed, tsPaused, tsAnimation, togglePause,
      toggleTimeMode, initialTimeSystem, getSimulationTime]

/-- **C1 amended** — resuming from pause at wall time `tResume` (having
paused at `tPause`) jumps the simulated instant forward by exactly the real
time spent paused, `tResume − tPause`; and re-pausing after a further real
delay `Δ` freezes a value exceeding the previous frozen instant by
`(tResume − tPause) + Δ × (animationTimeScale/1000)` — the claimed
`Δ × accelerationFactor` plus the unscaled paused-wall-time leak. -/
theorem resume_jump_semantics (ts : TimeSystemState)
    (tPause tResume delta now : ℚ)
    (hmode : ts.timeMode = TimeMode.animation) (hrun : ts.isPaused = false) :
    getSimulationTime (togglePause (togglePause ts tPause) tResume) tResume =
      getSimulationTime (togglePause ts tPause) tResume +
        (tResume - tPause) ∧
    getSimulationTime
        (togglePause (togglePause (togglePause ts tPause) tResume)
          (tResume + delta)) now =
      getSimulationTime (togglePause ts tPause) now +
        ((tResume - tPause) + delta * ts.animationTimeScale / 1000) := by
  obtain ⟨m, s, k, p, pt, o⟩ := ts
  cases hmode
  cases hrun
  simp [togglePause, getSimulationTime]
  constructor <;> ring

/-- Witness for C1's amended statement on the concrete scenario:
resume at 150 after pausing at 100 reads `frozen + 50`; re-pausing at 157
freezes `frozen + 50 + 7 × 604800`. -/
theorem resume_jump_semantics_witness :
    tsAnimation.timeMode = TimeMode.animation ∧
    tsAnimation.isPaused = false ∧
    (getSimulationTime (togglePause (togglePause tsAnimation 100) 150) 150 =
      getSimulationTime (togglePause tsAnimation 100) 150 + (150 - 100) ∧
    getSimulationTime
        (togglePause (togglePause (togglePause tsAnimation 100) 150)
          (150 + 7)) 200 =
      getSimulationTime (togglePause tsAnimation 100) 200 +
        ((150 - 100) + 7 * tsAnimation.animationTimeScale / 1000)) := by
  exact ⟨rfl, rfl, resume_jump_semantics tsAnimation 100 150 7 200 rfl rfl⟩

/-! ## C2 — a rate change while running snaps the clock to wall-time now -/

/-- **C2 counterexample** — with the clock running accelerated since wall 0
(1 s = 1 week), at wall time 100 the simulated instant reads `60480000`;
calling `setTimeScaleOption` (the rate-change entry point) at that moment
makes the very same reading return `100`: the value is not preserved —
it snaps back to the wall clock. -/
theorem rate_change_not_continuous :
    getSimulationTime tsAnimation 100 = 60480000 ∧
    getSimulationTime
      (setTimeScaleOption tsAnimation TimeScaleKind.day 100) 100 = 100 ∧
    getSimulationTime
        (setTimeScaleOption tsAnimation TimeScaleKind.day 100) 100 ≠
      getSimulationTime tsAnimation 100 := by
  refine ⟨?_, ?_, ?_⟩ <;>
    norm_num [tsAnimation, toggleTimeMode, initialTimeSystem,
      setTimeScaleOption, timeScaleOf, getSimulationTime]

/-- **C2 amended** — `setTimeScaleOption` in ACCELERATED-RUNNING does
re-anchor `simulationStartTime` to now with zero paused offset (keeping the
mode running), but the simulated instant read immediately after the call
equals the wall-clock `now` — so it is preserved across the call only in
the degenerate case where it already equalled `now`. -/
theorem rate_change_reanchor (ts : TimeSystemState) (kind : TimeScaleKind)
    (now : ℚ) (hmode : ts.timeMode = TimeMode.animation)
    (hrun : ts.isPaused = false) :
    (setTimeScaleOption ts kind now).timeMode = TimeMode.animation ∧
    (setTimeScaleOption ts kind now).isPaused = false ∧
    (setTimeScaleOption ts kind now).simulationStartTime = now ∧
    (setTimeScaleOption ts kind now).pausedTime = 0 ∧
    (setTimeScaleOption ts kind now).animationTimeScale = timeScaleOf kind ∧
    getSimulationTime (setTimeScaleOption ts kind now) now = now := by
  obtain ⟨m, s, k, p, pt, o⟩ := ts
  cases hmode
  cases hrun
  refine ⟨rfl, rfl, rfl, rfl, rfl, ?_⟩
  show now + (now - now) * timeScaleOf kind / 1000 = now
  ring

/-- Witness for C2's amended statement at the concrete running state. -/
theorem rate_change_reanchor_witness :
    tsAnimation.timeMode = TimeMode.animation ∧
    tsAnimation.isPaused = false ∧
    getSimulationTime
      (setTimeScaleOption tsAnimation TimeScaleKind.day 100) 100 = 100 := by
  refine ⟨rfl, rfl, ?_⟩
  exact (rate_change_reanchor tsAnimation TimeScaleKind.day 100 rfl rfl).2.2.2.2.2

/-! ## C10 — a rate change while paused rescales the frozen instant -/

/-- **C10** — `setTimeScaleOption` while ACCELERATED-PAUSED leaves the mode,
paused flag, anchor wall time and paused offset untouched (only the scale
and its option change), and the frozen simulated instant becomes
`anchor + offset × newScale/1000` — i.e. the offset from the anchor is
rescaled by `newScale/oldScale` rather than preserved. -/
theorem set_scale_while_paused (ts : TimeSystemState) (kind : TimeScaleKind)
    (now now' : ℚ) (hmode : ts.timeMode = TimeMode.animation)
    (hp : ts.isPaused = true) (hk : ts.animationTimeScale ≠ 0) :
    (setTimeScaleOption ts kind now).timeMode = ts.timeMode ∧
    (setTimeScaleOption ts kind now).isPaused = ts.isPaused ∧
    (setTimeScaleOption ts kind now).simulationStartTime =
      ts.simulationStartTime ∧
    (setTimeScaleOption ts kind now).pausedTime = ts.pausedTime ∧
    getSimulationTime (setTimeScaleOption ts kind now) now' =
      ts.simulationStartTime + ts.pausedTime * timeScaleOf kind / 1000 ∧
    getSimulationTime (setTimeScaleOption ts kind now) now' -
        ts.simulationStartTime =
      (getSimulationTime ts now' - ts.simulationStartTime) *
        (timeScaleOf kind / ts.animationTimeScale) := by
  obtain ⟨m, s, k, p, pt, o⟩ := ts
  cases hmode
  cases hp
  refine ⟨rfl, rfl, rfl, rfl, rfl, ?_⟩
  show s + pt * timeScaleOf kind / 1000 - s =
    (s + pt * k / 1000 - s) * (timeScaleOf kind / k)
  field_simp
  ring

/-- Witness for C10: switching the paused scenario clock from week scale to
hour scale rescales the frozen instant from `60480000` to `360000`. -/
theorem set_scale_while_paused_witness :
    tsPaused.timeMode = TimeMode.animation ∧ tsPaused.isPaused = true ∧
    tsPaused.animationTimeScale ≠ 0 ∧
    getSimulationTime
        (setTimeScaleOption tsPaused TimeScaleKind.hour 150) 999 -
        tsPaused.simulationStartTime =
      (getSimulationTime tsPaused 999 - tsPaused.simulationStartTime) *
        (timeScaleOf TimeScaleKind.hour / tsPaused.animationTimeScale) := by
  have hk : tsPaused.animationTimeScale ≠ 0 := by
    norm_num [tsPaused, tsAnimation, togglePause, toggleTimeMode,
      initialTimeSystem]
  refine ⟨rfl, rfl, hk, ?_⟩
  exact (set_scale_while_paused tsPaused TimeScaleKind.hour 150 999 rfl rfl
    hk).2.2.2.2.2

/-! ## C9 — the two satellite display-distance call sites disagree -/

/-- **C9** — for one and the same satellite element record with a nonzero
semi-major axis, the per-frame routine `calculateMoonPosition` scales
`semiMajorAxis × scaleFactors.distance` by 45 while the `createMoon`
creation site scales it by 30, so the two sites compute different display
distances. -/
theorem moon_distance_call_sites_disagree (d : CelestialBodyData)
    (h : orZero d.semiMajorAxis ≠ 0) :
    moonDistanceInCalculateMoonPosition d =
      orZero d.semiMajorAxis * scaleFactors.distance * 45 ∧
    moonDistanceInCreateMoon d =
      orZero d.semiMajorAxis * scaleFactors.distance * 30 ∧
    moonDistanceInCalculateMoonPosition d ≠ moonDistanceInCreateMoon d := by
  refine ⟨rfl, rfl, ?_⟩
  unfold moonDistanceInCalculateMoonPosition moonDistanceInCreateMoon
    scaleFactors
  intro heq
  apply h
  simp only at heq
  linarith

/-- Witness for C9 at the repository's actual moon record
(`semiMajorAxis = 0.00257`): the two sites give `1.1565` vs `0.771`. -/
theorem moon_distance_call_sites_disagree_witness :
    orZero moonData.semiMajorAxis ≠ 0 ∧
    moonDistanceInCalculateMoonPosition moonData ≠
      moonDistanceInCreateMoon moonData := by
  have h : orZero moonData.semiMajorAxis ≠ 0 := by
    show (0.00257 : ℝ) ≠ 0; norm_num
  exact ⟨h, (moon_distance_call_sites_disagree moonData h).2.2⟩

/-! ## Evaluation helpers for concrete inputs -/

theorem complex_mk_re_zero (x : ℝ) : (⟨x, 0⟩ : ℂ) = (x : ℂ) := by
  apply Complex.ext
  · simp
  · simp

/-- `Math.atan2(0, x) = 0` for `x ≥ 0`. -/
theorem atan2_zero_of_nonneg (x : ℝ) (hx : 0 ≤ x) : atan2 0 x = 0 := by
  unfold atan2
  rw [complex_mk_re_zero]
  exact Complex.arg_ofReal_of_nonneg hx

/-- At eccentric anomaly `0` the computed true anomaly is `0`. -/
theorem trueAnomalyOf_E_zero (e : ℝ) : trueAnomalyOf e 0 = 0 := by
  unfold trueAnomalyOf
  norm_num
  exact atan2_zero_of_nonneg _ (Real.sqrt_nonneg _)

/-- The source's Newton solve returns `0` immediately on mean anomaly `0`:
the first `deltaE` is `0/(1 - e)`, i.e. `0`, which already passes the
`|deltaE| < 1e-8` exit test. -/
theorem solveKepler_M_zero (e : ℝ) : solveKepler e 0 = 0 := by
  show keplerIter e 0 (9 + 1) 0 = 0
  rw [keplerIter]
  norm_num

/-! ## C3 — no load-time validation exists -/

/-- A body whose eccentricity lies outside `[0, 1)`; every other field is
well-formed. -/
noncomputable def invalidEccentricityBody : CelestialBodyData :=
  { name := "invalid", radius := 1, color := 0, semiMajorAxis := some 1,
    eccentricity := -0.5, inclination := none, meanLongitude := none,
    longitudePerihelion := none, longitudeNode := none, orbitalPeriod := 100,
    rotationPeriod := 1, distance := none, scaleFactor := none,
    axialTilt := none }

/-- **C3 counterexample** — nothing rejects an out-of-range eccentricity:
the data table is a plain literal with no checking code, the engine's type
has no failure channel, and feeding a body with `eccentricity = -0.5`
(outside `[0,1)`) into the position routine silently yields an ordinary
position — with the invalid eccentricity fully applied (the orbital radius
becomes `10·(1-(-0.5)) = 15` rather than the `10` a clamp to `[0,1)` would
give). -/
theorem invalid_eccentricity_silently_accepted :
    invalidEccentricityBody.eccentricity < 0 ∧
    calculatePlanetPosition invalidEccentricityBody J2000_EPOCH =
      { x := 15, y := 0, z := 0 } := by
  constructor
  · show (-0.5 : ℝ) < 0
    norm_num
  · have hM : meanAnomalyAt invalidEccentricityBody J2000_EPOCH = 0 := by
      norm_num [meanAnomalyAt, daysSinceJ2000, orZero, invalidEccentricityBody]
    simp only [calculatePlanetPosition]
    rw [hM, solveKepler_M_zero, trueAnomalyOf_E_zero]
    norm_num [invalidEccentricityBody, orZero, scaleFactors]

/-- **C3 amended** — although no load-time validation or clamping exists
anywhere in the program, every non-central body actually shipped in the
static table does satisfy the documented invariant:
`eccentricity ∈ [0,1)` and `orbitalPeriod > 0`. -/
theorem celestialData_invariant_holds :
    validOrbitalElements celestialData.mercury ∧
    validOrbitalElements celestialData.venus ∧
    validOrbitalElements celestialData.earth ∧
    validOrbitalElements celestialData.moon ∧
    validOrbitalElements celestialData.mars ∧
    validOrbitalElements celestialData.jupiter ∧
    validOrbitalElements celestialData.saturn ∧
    validOrbitalElements celestialData.uranus ∧
    validOrbitalElements celestialData.neptune ∧
    validOrbitalElements celestialData.pluto := by
  refine ⟨?_, ?_, ?_, ?_, ?_, ?_, ?_, ?_, ?_, ?_⟩ <;>
    norm_num [validOrbitalElements, celestialData, mercuryData, venusData,
      earthData, moonData, marsData, jupiterData, saturnData, uranusData,
      neptuneData, plutoData]

/-! ## C7 — orbit-path sampling -/

theorem orbitPathPoint_eq_spec (d : CelestialBodyData) (nu : ℝ) :
    orbitPathPoint d nu = orbitPathPointSpec d nu := by
  simp only [orbitPathPoint, orbitPathPointSpec, specEclipticToScene,
    degToRad, Vec3.mk.injEq]
  refine ⟨?_, ?_, ?_⟩ <;> ring

theorem cos_two_pi_add_arg (w : ℝ) :
    Real.cos (2 * Real.pi + w) = Real.cos w := by
  rw [add_comm]
  exact Real.cos_add_two_pi w

theorem sin_two_pi_add_arg (w : ℝ) :
    Real.sin (2 * Real.pi + w) = Real.sin w := by
  rw [add_comm]
  exact Real.sin_add_two_pi w

/-- The sampled point at true anomaly `2π` coincides exactly with the one
at `0` (the path closes). -/
theorem orbitPathPointSpec_two_pi (d : CelestialBodyData) :
    orbitPathPointSpec d (2 * Real.pi) = orbitPathPointSpec d 0 := by
  simp only [orbitPathPointSpec, specEclipticToScene, Vec3.mk.injEq,
    cos_two_pi_add_arg, sin_two_pi_add_arg, Real.cos_two_pi, Real.cos_zero,
    zero_add]

/-- **C7** — for `N ≥ 1`, `generateOrbitPath` materializes exactly `N + 1`
points; the `i`-th point is the spec's sample at `ν = (i/N)·2π` — obtained
from `r = a(1-e²)/(1+e·cosν)` and the same orientation transform and
`(x, z, y)` remap as `computePosition` — and the first and the last point
coincide exactly. -/
theorem generateOrbitPath_props (d : CelestialBodyData) (N : ℕ)
    (hN : 1 ≤ N) :
    (generateOrbitPath d N).length = N + 1 ∧
    (∀ i : ℕ, i < N + 1 →
      (generateOrbitPath d N).getD i { x := 0, y := 0, z := 0 } =
        orbitPathPointSpec d ((i : ℝ) / (N : ℝ) * (2 * Real.pi))) ∧
    (generateOrbitPath d N).getD 0 { x := 0, y := 0, z := 0 } =
      (generateOrbitPath d N).getD N { x := 0, y := 0, z := 0 } := by
  have hpt : ∀ i : ℕ, i < N + 1 →
      (generateOrbitPath d N).getD i { x := 0, y := 0, z := 0 } =
        orbitPathPointSpec d ((i : ℝ) / (N : ℝ) * (2 * Real.pi)) := by
    intro i hi
    unfold generateOrbitPath
    rw [List.getD_eq_getElem?_getD, List.getElem?_map,
      List.getElem?_range hi]
    simp [orbitPathPoint_eq_spec]
  refine ⟨by rw [generateOrbitPath, List.length_map, List.length_range], hpt, ?_⟩
  have hNe : (N : ℝ) ≠ 0 := by
    have : 0 < N := hN
    positivity
  rw [hpt 0 (by omega), hpt N (by omega)]
  rw [show ((0 : ℕ) : ℝ) / (N : ℝ) * (2 * Real.pi) = 0 by norm_num,
    show ((N : ℕ) : ℝ) / (N : ℝ) * (2 * Real.pi) = 2 * Real.pi by
      rw [div_self hNe, one_mul]]
  exact (orbitPathPointSpec_two_pi d).symm

/-- Witness for C7 at the earth row with `N = 2`: three points, closed. -/
theorem generateOrbitPath_props_witness :
    1 ≤ 2 ∧ (generateOrbitPath earthData 2).length = 2 + 1 ∧
    (generateOrbitPath earthData 2).getD 0 { x := 0, y := 0, z := 0 } =
      (generateOrbitPath earthData 2).getD 2 { x := 0, y := 0, z := 0 } := by
  have h := generateOrbitPath_props earthData 2 (by norm_num)
  exact ⟨by norm_num, h.1, h.2.2⟩

/-! ## C6 — the two code paths agree (round trip)

The mathematical core: with `x = √(1-e)·cos(E/2)` and `y = √(1+e)·sin(E/2)`
the code's true anomaly is `ν = 2·atan2(y, x)`, and
`cos ν = (cosE − e)/(1 − e·cosE)`, so the path formula
`a(1−e²)/(1+e·cosν)` collapses to the position formula `a(1−e·cosE)`. -/

theorem cos_two_atan2 (y x : ℝ) (h : x * x + y * y ≠ 0) :
    Real.cos (2 * atan2 y x) = (x * x - y * y) / (x * x + y * y) := by
  have hpos : 0 < x * x + y * y :=
    lt_of_le_of_ne
      (by nlinarith [mul_self_nonneg x, mul_self_nonneg y]) (Ne.symm h)
  have hz : (⟨x, y⟩ : ℂ) ≠ 0 := by
    rw [← Complex.normSq_pos, Complex.normSq_mk]
    exact hpos
  have hcos : Real.cos (atan2 y x) = x / Real.sqrt (x * x + y * y) := by
    unfold atan2
    rw [Complex.cos_arg hz, Complex.abs_apply, Complex.normSq_mk]
  rw [Real.cos_two_mul, hcos, div_pow, Real.sq_sqrt (le_of_lt hpos)]
  field_simp
  ring

theorem cos_trueAnomalyOf (e E : ℝ) (h0 : 0 ≤ e) (h1 : e < 1) :
    Real.cos (trueAnomalyOf e E) =
      (Real.cos E - e) / (1 - e * Real.cos E) := by
  have hc1 : Real.cos E ≤ 1 := Real.cos_le_one E
  have hcm : -1 ≤ Real.cos E := Real.neg_one_le_cos E
  have hden : 0 < 1 - e * Real.cos E := by nlinarith
  unfold trueAnomalyOf
  set x := Real.sqrt (1 - e) * Real.cos (E / 2) with hx
  set y := Real.sqrt (1 + e) * Real.sin (E / 2) with hy
  have hcosh : Real.cos (E / 2) ^ 2 = 1 / 2 + Real.cos E / 2 := by
    have h2 := Real.cos_sq (E / 2)
    rwa [show 2 * (E / 2) = E by ring] at h2
  have hsinh : Real.sin (E / 2) ^ 2 = 1 / 2 - Real.cos E / 2 := by
    have h2 := Real.sin_sq (E / 2)
    rw [hcosh] at h2
    linarith
  have hxx : x * x = (1 - e) * Real.cos (E / 2) ^ 2 := by
    rw [hx, mul_mul_mul_comm, Real.mul_self_sqrt (by linarith)]
    ring
  have hyy : y * y = (1 + e) * Real.sin (E / 2) ^ 2 := by
    rw [hy, mul_mul_mul_comm, Real.mul_self_sqrt (by linarith)]
    ring
  have hsum : x * x + y * y = 1 - e * Real.cos E := by
    rw [hxx, hyy, hcosh, hsinh]
    ring
  have hdiff : x * x - y * y = Real.cos E - e := by
    rw [hxx, hyy, hcosh, hsinh]
    ring
  rw [cos_two_atan2 y x (by rw [hsum]; exact ne_of_gt hden), hsum, hdiff]

/-- The orbit-path radius at the code's true anomaly of `E` equals the
position-path radius at `E`. -/
theorem radius_roundtrip (a e E : ℝ) (h0 : 0 ≤ e) (h1 : e < 1) :
    a * (1 - e * e) / (1 + e * Real.cos (trueAnomalyOf e E)) =
      a * (1 - e * Real.cos E) := by
  have hc1 : Real.cos E ≤ 1 := Real.cos_le_one E
  have hcm : -1 ≤ Real.cos E := Real.neg_one_le_cos E
  have hden : (0 : ℝ) < 1 - e * Real.cos E := by nlinarith
  have hdne : (1 : ℝ) - e * Real.cos E ≠ 0 := ne_of_gt hden
  have he2 : (1 : ℝ) - e * e ≠ 0 := by nlinarith
  rw [cos_trueAnomalyOf e E h0 h1]
  rw [show 1 + e * ((Real.cos E - e) / (1 - e * Real.cos E)) =
      (1 - e * e) / (1 - e * Real.cos E) by field_simp; ring]
  rw [div_div_eq_mul_div]
  field_simp [he2]
  ring

/-- **C6** — round-trip agreement of the two independent code paths: for
valid elements (`0 ≤ e < 1`) and an eccentric anomaly `E`, take the instant
`t` whose mean anomaly is `E − e·sinE` (the mean-anomaly relation inverted
at the true anomaly `ν` of `E`); provided the Newton solve recovers `E`
exactly from that mean anomaly, `calculatePlanetPosition` at `t` equals the
`generateOrbitPath` sample at the same `ν` — exactly, not merely within
tolerance. -/
theorem computePosition_matches_orbit_path (data : CelestialBodyData)
    (E t : ℝ) (he0 : 0 ≤ data.eccentricity) (he1 : data.eccentricity < 1)
    (hM : meanAnomalyAt data t = E - data.eccentricity * Real.sin E)
    (hsolve : solveKepler data.eccentricity (meanAnomalyAt data t) = E) :
    calculatePlanetPosition data t =
      orbitPathPoint data (trueAnomalyOf data.eccentricity E) := by
  have hrad := radius_roundtrip
    (orZero data.semiMajorAxis * scaleFactors.distance)
    data.eccentricity E he0 he1
  simp only [calculatePlanetPosition, orbitPathPoint, hsolve]
  rw [hrad]

/-- A circular test body: `e = 0`, all longitudes and the inclination
absent (read as `0`), `a = 1 AU`. -/
noncomputable def circularTestBody : CelestialBodyData :=
  { name := "circular", radius := 1, color := 0, semiMajorAxis := some 1,
    eccentricity := 0, inclination := none, meanLongitude := none,
    longitudePerihelion := none, longitudeNode := none,
    orbitalPeriod := 365.25, rotationPeriod := 1, distance := none,
    scaleFactor := none, axialTilt := none }

/-- Witness for C6: at the epoch the circular body's mean anomaly is `0`,
the Newton solve returns `E = 0` exactly (first `ΔE` is `0`), and the two
code paths produce the same point. -/
theorem computePosition_matches_orbit_path_witness :
    (0 : ℝ) ≤ circularTestBody.eccentricity ∧
    circularTestBody.eccentricity < 1 ∧
    meanAnomalyAt circularTestBody J2000_EPOCH =
      0 - circularTestBody.eccentricity * Real.sin 0 ∧
    solveKepler circularTestBody.eccentricity
      (meanAnomalyAt circularTestBody J2000_EPOCH) = 0 ∧
    calculatePlanetPosition circularTestBody J2000_EPOCH =
      orbitPathPoint circularTestBody
        (trueAnomalyOf circularTestBody.eccentricity 0) := by
  have hMzero : meanAnomalyAt circularTestBody J2000_EPOCH = 0 := by
    norm_num [meanAnomalyAt, daysSinceJ2000, orZero, circularTestBody]
  have hM : meanAnomalyAt circularTestBody J2000_EPOCH =
      0 - circularTestBody.eccentricity * Real.sin 0 := by
    rw [hMzero]
    norm_num
  have hsolve : solveKepler circularTestBody.eccentricity
      (meanAnomalyAt circularTestBody J2000_EPOCH) = 0 := by
    rw [hMzero]
    exact solveKepler_M_zero _
  refine ⟨?_, ?_, hM, hsolve, ?_⟩
  · norm_num [circularTestBody]
  · norm_num [circularTestBody]
  · exact computePosition_matches_orbit_path circularTestBody 0 J2000_EPOCH
      (by norm_num [circularTestBody]) (by norm_num [circularTestBody])
      hM hsolve

end SolarSystem
